import Mathlib

/-!
Verification of the Python ctypes binding `cookie_store_bridge.py` and of the
native cookie-store engine it drives.  The binding code (status handling,
error-message decoding, buffer deallocation, destructor) is embedded from the
source; the native engine is a precompiled shared library whose behaviour is
modelled from the specification.
-/

namespace CookieBridge

/-- Status codes of the native engine, as a closed enumeration. -/
inductive Status where
  | success
  | notFound
  | allocationFailed
  | exception
deriving DecidableEq, Repr

/-- The integer code each status marshals to across the ABI. -/
def Status.code : Status → Int
  | .success => 0
  | .notFound => 1
  | .allocationFailed => 2
  | .exception => -1

/-- Binding constant, from `cookie_store_bridge.py` line 68. -/
def COOKIE_SUCCESS : Int := 0

/-- Binding constant, from `cookie_store_bridge.py` line 69. -/
def COOKIE_NOT_FOUND : Int := 1

/-- Binding constant, from `cookie_store_bridge.py` line 70. -/
def COOKIE_ALLOCATION_FAILED : Int := 2

/-- Binding constant, from `cookie_store_bridge.py` line 71. -/
def COOKIE_EXCEPTION : Int := -1

/-- A cookie record with the seven fields of the wire schema. -/
structure Cookie where
  name : String
  value : String
  domain : String
  path : String
  secure : Bool
  httpOnly : Bool
  expirationTime : Int
deriving DecidableEq, Repr

/-- Two cookies share the store key, the pair (name, domain). -/
def sameKey (a b : Cookie) : Bool :=
  a.name == b.name && a.domain == b.domain

/-- Modelled from the spec: the engine store is the insertion-ordered list of
cookies (the Kotlin/Native Store Engine is a prebuilt shared library, not in
the visible sources). -/
def EngineStore : Type := List Cookie

/-- Modelled from the spec: `set` inserts or overwrites by (name, domain);
an existing key is overwritten in place, otherwise the cookie is appended
in insertion order. -/
def engineSet (s : List Cookie) (c : Cookie) : List Cookie :=
  if s.any (fun x => sameKey x c) then
    s.map (fun x => if sameKey x c then c else x)
  else
    s ++ [c]

/-- Modelled from the spec: `get_by_domain` returns every cookie whose
domain field exactly equals the argument, in insertion order; `NotFound`
with a null out-buffer when zero cookies match. -/
def engineGetByDomain (s : List Cookie) (d : String) :
    Status × Option (List Cookie) :=
  let r := s.filter (fun x => x.domain == d)
  if r.isEmpty then (.notFound, none) else (.success, some r)

/-- Modelled from the spec: `get_all` returns every cookie currently
stored; `NotFound` with a null out-buffer when the store is empty. -/
def engineGetAll (s : List Cookie) : Status × Option (List Cookie) :=
  if s.isEmpty then (.notFound, none) else (.success, some s)

/-- Modelled from the spec: `remove` deletes the cookie at key
(name, domain); `NotFound`, store unchanged, if no such key exists. -/
def engineRemove (s : List Cookie) (n d : String) : Status × List Cookie :=
  if s.any (fun x => x.name == n && x.domain == d) then
    (.success, s.filter (fun x => !(x.name == n && x.domain == d)))
  else
    (.notFound, s)

/-- Modelled from the spec: `clear_all` deletes every cookie and succeeds,
also on an already-empty store. -/
def engineClearAll (s : List Cookie) : Status × List Cookie :=
  (.success, [])

/-- Modelled from the spec: `NotFound` is not accompanied by an error
message; only `AllocationFailed` and `Exception` attach a message buffer. -/
def engineErrMsg : Status → Option String
  | .allocationFailed => some "allocation failed"
  | .exception => some "internal exception"
  | _ => none

/-- The two out-slots a read call hands back: the result buffer and the
error-message buffer. -/
inductive Slot where
  | dataSlot
  | errSlot
deriving DecidableEq, Repr

/-- A deallocation call the binding can make: the engine's dedicated entry
point `free_knative_pointer`, or the caller's own allocator (which the
binding never uses). -/
inductive Dealloc where
  | free_knative_pointer (s : Slot)
  | callerFree (s : Slot)
deriving DecidableEq, Repr

/-- Outcome of a binding method as seen by the Python caller: a returned
value, a raised `RuntimeError` with its message, or the `ValueError` ctypes
raises when a NULL pointer is cast and dereferenced. -/
inductive PyOutcome (α : Type) where
  | ok (val : α)
  | runtimeError (msg : String)
  | nullPointerAccess
deriving DecidableEq, Repr

/-- What the engine wrote back for a status-only call: the returned status
code and the `errMsg` out-slot (`none` models a NULL `c_char_p`). -/
structure StatusReply where
  code : Int
  errMsg : Option String
deriving DecidableEq, Repr

/-- What the engine wrote back for a read call: status code, the `outData`
buffer (decoded; `none` models a NULL pointer) and the `errMsg` out-slot. -/
structure ReadReply where
  code : Int
  outData : Option (List Cookie)
  errMsg : Option String
deriving DecidableEq, Repr

/-- `if err_msg: lib.free_knative_pointer(err_msg)` — free an out-slot only
when its pointer is non-null. -/
def freeIfNonNull {α : Type} (p : Option α) (sl : Slot) : List Dealloc :=
  match p with
  | some _ => [.free_knative_pointer sl]
  | none => []

/-- `CookieStore.set`, lines 134-158: raises `RuntimeError` whenever the
status is not `COOKIE_SUCCESS`, decoding the message with the
"Unknown error" fallback and freeing it through `free_knative_pointer`
when non-null. -/
def CookieStore.set (r : StatusReply) : PyOutcome Bool × List Dealloc :=
  if r.code ≠ COOKIE_SUCCESS then
    let error := r.errMsg.getD "Unknown error"
    (.runtimeError ("Failed to set cookie: " ++ error),
     freeIfNonNull r.errMsg .errSlot)
  else
    (.ok true, [])

/-- `CookieStore.get_by_domain`, lines 160-197: `COOKIE_NOT_FOUND` becomes
an empty list; any other non-success status raises; on success the data
buffer is parsed and freed, and a non-null message buffer is freed. -/
def CookieStore.get_by_domain (r : ReadReply) :
    PyOutcome (List Cookie) × List Dealloc :=
  if r.code = COOKIE_NOT_FOUND then
    (.ok [], freeIfNonNull r.errMsg .errSlot)
  else if r.code ≠ COOKIE_SUCCESS then
    let error := r.errMsg.getD "Unknown error"
    (.runtimeError ("Failed to get cookies by domain: " ++ error),
     freeIfNonNull r.errMsg .errSlot)
  else
    match r.outData with
    | none => (.nullPointerAccess, [])
    | some jar =>
        (.ok jar,
         .free_knative_pointer .dataSlot :: freeIfNonNull r.errMsg .errSlot)

/-- `CookieStore.remove`, lines 199-219: raises `RuntimeError` whenever the
status is not `COOKIE_SUCCESS` — including `COOKIE_NOT_FOUND`. -/
def CookieStore.remove (r : StatusReply) : PyOutcome Bool × List Dealloc :=
  if r.code ≠ COOKIE_SUCCESS then
    let error := r.errMsg.getD "Unknown error"
    (.runtimeError ("Failed to remove cookie: " ++ error),
     freeIfNonNull r.errMsg .errSlot)
  else
    (.ok true, [])

/-- `CookieStore.get_all`, lines 221-257: same shape as `get_by_domain`
with its own error text. -/
def CookieStore.get_all (r : ReadReply) :
    PyOutcome (List Cookie) × List Dealloc :=
  if r.code = COOKIE_NOT_FOUND then
    (.ok [], freeIfNonNull r.errMsg .errSlot)
  else if r.code ≠ COOKIE_SUCCESS then
    let error := r.errMsg.getD "Unknown error"
    (.runtimeError ("Failed to get all cookies: " ++ error),
     freeIfNonNull r.errMsg .errSlot)
  else
    match r.outData with
    | none => (.nullPointerAccess, [])
    | some jar =>
        (.ok jar,
         .free_knative_pointer .dataSlot :: freeIfNonNull r.errMsg .errSlot)

/-- `CookieStore.clear_all`, lines 259-277: raises `RuntimeError` whenever
the status is not `COOKIE_SUCCESS`. -/
def CookieStore.clear_all (r : StatusReply) : PyOutcome Bool × List Dealloc :=
  if r.code ≠ COOKIE_SUCCESS then
    let error := r.errMsg.getD "Unknown error"
    (.runtimeError ("Failed to clear all cookies: " ++ error),
     freeIfNonNull r.errMsg .errSlot)
  else
    (.ok true, [])

/-- The Python wrapper object: its `_store` attribute holds the native
handle, `none` once nulled out (or never set). -/
structure CookieStore where
  _store : Option Nat
deriving DecidableEq, Repr

/-- `CookieStore.__del__`, lines 129-132: free the handle through
`cookie_store_free` only when `_store` is non-null, then null it out.
Returns the new object state and the list of handles freed. -/
def CookieStore.del (self : CookieStore) : CookieStore × List Nat :=
  match self._store with
  | some h => (⟨none⟩, [h])
  | none => (self, [])

/-- Run the destructor `n` times, accumulating every handle freed. -/
def delRuns (self : CookieStore) : Nat → CookieStore × List Nat
  | 0 => (self, [])
  | n + 1 =>
      let (s1, f1) := self.del
      let (s2, f2) := delRuns s1 n
      (s2, f1 ++ f2)

/-- Full pipeline: engine `set` followed by the binding's status handling. -/
def setFull (s : List Cookie) (c : Cookie) :
    (PyOutcome Bool × List Dealloc) × List Cookie :=
  (CookieStore.set { code := Status.success.code,
                     errMsg := engineErrMsg .success },
   engineSet s c)

/-- Full pipeline: engine `get_by_domain` followed by the binding. -/
def get_by_domainFull (s : List Cookie) (d : String) :
    PyOutcome (List Cookie) × List Dealloc :=
  let (st, data) := engineGetByDomain s d
  CookieStore.get_by_domain
    { code := st.code, outData := data, errMsg := engineErrMsg st }

/-- Full pipeline: engine `remove` followed by the binding. -/
def removeFull (s : List Cookie) (n d : String) :
    (PyOutcome Bool × List Dealloc) × List Cookie :=
  let (st, s2) := engineRemove s n d
  (CookieStore.remove { code := st.code, errMsg := engineErrMsg st }, s2)

/-- Full pipeline: engine `get_all` followed by the binding. -/
def get_allFull (s : List Cookie) : PyOutcome (List Cookie) × List Dealloc :=
  let (st, data) := engineGetAll s
  CookieStore.get_all
    { code := st.code, outData := data, errMsg := engineErrMsg st }

/-- Full pipeline: engine `clear_all` followed by the binding. -/
def clear_allFull (s : List Cookie) :
    (PyOutcome Bool × List Dealloc) × List Cookie :=
  let (st, s2) := engineClearAll s
  (CookieStore.clear_all { code := st.code, errMsg := engineErrMsg st }, s2)

/-- Key uniqueness: no two stored cookies share the (name, domain) key. -/
def KeyUnique (s : List Cookie) : Prop :=
  s.Pairwise (fun a b => sameKey a b = false)

/-- Stores reachable from the empty store by engine operations. -/
inductive Reachable : List Cookie → Prop where
  | empty : Reachable []
  | set {s : List Cookie} (c : Cookie) : Reachable s → Reachable (engineSet s c)
  | remove {s : List Cookie} (n d : String) :
      Reachable s → Reachable (engineRemove s n d).2
  | clear {s : List Cookie} : Reachable s → Reachable (engineClearAll s).2

/-- Which out-slot pointers of a read reply are non-null. -/
def slotNonNull (r : ReadReply) : Slot → Bool
  | .dataSlot => r.outData.isSome
  | .errSlot => r.errMsg.isSome

/-- A concrete cookie used by witnesses. -/
def cA : Cookie :=
  { name := "n1", value := "v1", domain := "a.test", path := "/",
    secure := false, httpOnly := false, expirationTime := 0 }

/-- A second concrete cookie, same key as `cA`, other fields changed. -/
def cA2 : Cookie :=
  { name := "n1", value := "v9", domain := "a.test", path := "/x",
    secure := true, httpOnly := true, expirationTime := 7 }

/-- A concrete cookie under a different domain. -/
def cB : Cookie :=
  { name := "n3", value := "v3", domain := "b.test", path := "/",
    secure := false, httpOnly := false, expirationTime := 0 }

theorem sameKey_iff {a b : Cookie} :
    sameKey a b = true ↔ a.name = b.name ∧ a.domain = b.domain := by
  simp [sameKey]

theorem sameKey_self (a : Cookie) : sameKey a a = true := by
  simp [sameKey]

theorem sameKey_comm (a b : Cookie) : sameKey a b = sameKey b a := by
  rw [Bool.eq_iff_iff, sameKey_iff, sameKey_iff]
  constructor <;> rintro ⟨h1, h2⟩ <;> exact ⟨h1.symm, h2.symm⟩

theorem sameKey_symm {a b : Cookie} (h : sameKey a b = true) :
    sameKey b a = true := by
  rw [← sameKey_comm]
  exact h

theorem sameKey_trans {a b c : Cookie} (h1 : sameKey a b = true)
    (h2 : sameKey b c = true) : sameKey a c = true := by
  obtain ⟨x1, x2⟩ := sameKey_iff.mp h1
  obtain ⟨y1, y2⟩ := sameKey_iff.mp h2
  exact sameKey_iff.mpr ⟨x1.trans y1, x2.trans y2⟩

theorem sameKey_congr_left {x c : Cookie} (h : sameKey x c = true)
    (y : Cookie) : sameKey c y = sameKey x y := by
  rw [Bool.eq_iff_iff]
  constructor
  · intro hy
    exact sameKey_trans h hy
  · intro hy
    exact sameKey_trans (sameKey_symm h) hy

/-- Replacing a key-match by the new cookie preserves the key of every
element of the store. -/
theorem overwrite_preserves_key (c x y : Cookie) :
    sameKey (if sameKey x c then c else x) y = sameKey x y := by
  by_cases h : sameKey x c = true
  · simp only [h, if_true]
    exact sameKey_congr_left h y
  · simp [h]

theorem overwrite_preserves_key_r (c x y : Cookie) :
    sameKey y (if sameKey x c then c else x) = sameKey y x := by
  rw [sameKey_comm, overwrite_preserves_key, sameKey_comm]

/-- Filtering commutes with a map whose function preserves the predicate. -/
theorem filter_map_of_pred {α : Type} (f : α → α) (p : α → Bool)
    (hf : ∀ x, p (f x) = p x) (l : List α) :
    (l.map f).filter p = (l.filter p).map f := by
  induction l with
  | nil => rfl
  | cons a t ih =>
      by_cases h : p a = true
      · simp [List.filter_cons, hf, h, ih]
      · simp [List.filter_cons, hf, h, ih]

theorem keyUnique_engineSet {s : List Cookie} (h : KeyUnique s) (c : Cookie) :
    KeyUnique (engineSet s c) := by
  unfold engineSet
  by_cases hp : s.any (fun x => sameKey x c) = true
  · rw [if_pos hp]
    unfold KeyUnique
    refine List.pairwise_map.mpr (h.imp ?_)
    intro a b hab
    have h1 : sameKey (if sameKey a c then c else a) (if sameKey b c then c else b)
        = sameKey a b := by
      rw [overwrite_preserves_key, overwrite_preserves_key_r]
    rw [h1]
    exact hab
  · rw [if_neg hp]
    unfold KeyUnique
    rw [List.pairwise_append]
    refine ⟨h, by simp, ?_⟩
    intro a ha b hb
    simp only [List.mem_singleton] at hb
    have hf : s.any (fun x => sameKey x c) = false := by simpa using hp
    have h2 := List.any_eq_false.mp hf a ha
    rw [hb]
    simpa using h2

theorem keyUnique_engineRemove {s : List Cookie} (h : KeyUnique s)
    (n d : String) : KeyUnique (engineRemove s n d).2 := by
  unfold engineRemove
  by_cases hp : s.any (fun x => x.name == n && x.domain == d) = true
  · rw [if_pos hp]
    exact h.sublist (List.filter_sublist s)
  · rw [if_neg hp]
    exact h

theorem reachable_keyUnique {s : List Cookie} (h : Reachable s) :
    KeyUnique s := by
  induction h with
  | empty => exact List.Pairwise.nil
  | set c _ ih => exact keyUnique_engineSet ih c
  | remove n d _ ih => exact keyUnique_engineRemove ih n d
  | clear _ _ => exact List.Pairwise.nil

/-- In a key-unique store, at most one cookie matches a given key. -/
theorem length_filter_key_le {s : List Cookie} (h : KeyUnique s) (c : Cookie) :
    (s.filter (fun x => sameKey x c)).length ≤ 1 := by
  induction s with
  | nil => simp
  | cons a t ih =>
      obtain ⟨ha, ht⟩ := List.pairwise_cons.mp h
      by_cases hp : sameKey a c = true
      · rw [List.filter_cons]
        simp only [hp, if_true]
        have hnil : t.filter (fun x => sameKey x c) = [] := by
          rw [List.filter_eq_nil_iff]
          intro b hb hpb
          have hab : sameKey a b = true := sameKey_trans hp (sameKey_symm hpb)
          rw [ha b hb] at hab
          exact Bool.false_ne_true hab
        rw [hnil]
        simp
      · rw [List.filter_cons]
        simp only [hp]
        simpa using ih ht

/-- After a `set`, the cookies matching the written key are exactly the one
written cookie. -/
theorem engineSet_filter_key {s : List Cookie} (h : KeyUnique s) (c : Cookie) :
    (engineSet s c).filter (fun x => sameKey x c) = [c] := by
  unfold engineSet
  by_cases hp : s.any (fun x => sameKey x c) = true
  · rw [if_pos hp]
    rw [filter_map_of_pred (fun x => if sameKey x c then c else x)
      (fun x => sameKey x c) (fun x => overwrite_preserves_key c x c) s]
    obtain ⟨x, hx, hpx⟩ := List.any_eq_true.mp hp
    have hmem : x ∈ s.filter (fun y => sameKey y c) :=
      List.mem_filter.mpr ⟨hx, hpx⟩
    have hlen := length_filter_key_le h c
    rcases hfe : s.filter (fun y => sameKey y c) with _ | ⟨a, t⟩
    · rw [hfe] at hmem
      exact absurd hmem (List.not_mem_nil x)
    · rcases t with _ | ⟨b, t2⟩
      · have hae : a ∈ s.filter (fun y => sameKey y c) := by
          rw [hfe]
          exact List.mem_cons_self a []
        have hpa : sameKey a c = true := (List.mem_filter.mp hae).2
        simp [hpa]
      · rw [hfe] at hlen
        simp [List.length_cons] at hlen
  · rw [if_neg hp]
    rw [List.filter_append]
    have hf : s.any (fun x => sameKey x c) = false := by simpa using hp
    have h0 : s.filter (fun x => sameKey x c) = [] := by
      rw [List.filter_eq_nil_iff]
      intro b hb hpb
      exact (List.any_eq_false.mp hf b hb) hpb
    rw [h0]
    simp [sameKey_self]

/-- The full `get_by_domain` pipeline always hands the Python caller the
insertion-ordered list of exact-domain matches, through either the
`NotFound` branch (empty list) or the success branch (decoded buffer). -/
theorem get_by_domainFull_ok (s : List Cookie) (d : String) :
    (get_by_domainFull s d).1 =
      PyOutcome.ok (s.filter (fun x => x.domain == d)) := by
  rcases hfe : s.filter (fun x => x.domain == d) with _ | ⟨a, t⟩ <;>
    simp [get_by_domainFull, engineGetByDomain, hfe, CookieStore.get_by_domain,
      engineErrMsg, Status.code, COOKIE_NOT_FOUND, COOKIE_SUCCESS]

/-- The full `get_all` pipeline always hands the Python caller the whole
store, through either the `NotFound` branch or the success branch. -/
theorem get_allFull_ok (s : List Cookie) :
    (get_allFull s).1 = PyOutcome.ok s := by
  rcases s with _ | ⟨a, t⟩ <;>
    simp [get_allFull, engineGetAll, CookieStore.get_all,
      engineErrMsg, Status.code, COOKIE_NOT_FOUND, COOKIE_SUCCESS]

/-- `get_by_domain` and `get_all` perform the same deallocations on every
corresponding path. -/
theorem frees_shape (r : ReadReply) :
    (CookieStore.get_by_domain r).2 = (CookieStore.get_all r).2 := by
  unfold CookieStore.get_by_domain CookieStore.get_all
  by_cases h1 : r.code = COOKIE_NOT_FOUND
  · simp [h1]
  · by_cases h0 : r.code = COOKIE_SUCCESS
    · rcases hd : r.outData with _ | jar <;> simp [h0, h1, hd]
    · simp [h0, h1]

/-- Every deallocation `get_by_domain` performs goes through
`free_knative_pointer` and targets a non-null out-slot. -/
theorem get_by_domain_frees (r : ReadReply) (d : Dealloc)
    (h : d ∈ (CookieStore.get_by_domain r).2) :
    ∃ sl : Slot, d = Dealloc.free_knative_pointer sl ∧
      slotNonNull r sl = true := by
  unfold CookieStore.get_by_domain at h
  by_cases h1 : r.code = COOKIE_NOT_FOUND
  · rcases he : r.errMsg with _ | m <;>
      simp [h1, he, freeIfNonNull] at h
    subst h
    exact ⟨.errSlot, rfl, by simp [slotNonNull, he]⟩
  · by_cases h0 : r.code = COOKIE_SUCCESS
    · rcases hd : r.outData with _ | jar
      · simp [h0, h1, hd, COOKIE_SUCCESS, COOKIE_NOT_FOUND] at h
      · rcases he : r.errMsg with _ | m
        · simp [h0, h1, hd, he, freeIfNonNull,
            COOKIE_SUCCESS, COOKIE_NOT_FOUND] at h
          subst h
          exact ⟨.dataSlot, rfl, by simp [slotNonNull, hd]⟩
        · simp [h0, h1, hd, he, freeIfNonNull,
            COOKIE_SUCCESS, COOKIE_NOT_FOUND] at h
          rcases h with h | h <;> subst h
          · exact ⟨.dataSlot, rfl, by simp [slotNonNull, hd]⟩
          · exact ⟨.errSlot, rfl, by simp [slotNonNull, he]⟩
    · rcases he : r.errMsg with _ | m <;>
        simp [h0, h1, he, freeIfNonNull] at h
      subst h
      exact ⟨.errSlot, rfl, by simp [slotNonNull, he]⟩

/-- The destructor is a fixed point on a nulled-out object: no further
frees ever happen. -/
theorem delRuns_none (n : Nat) :
    delRuns ⟨none⟩ n = (⟨none⟩, []) := by
  induction n with
  | zero => rfl
  | succ k ih => simp [delRuns, CookieStore.del, ih]

/-- C1 counterexample: on the empty store, `remove("x", "nowhere.test")`
yields `NotFound` from the engine, yet the binding raises a
`RuntimeError` instead of surfacing a non-error no-op. -/
theorem remove_absent_counterexample :
    engineRemove [] "x" "nowhere.test" = (Status.notFound, []) ∧
    (removeFull [] "x" "nowhere.test").1.1 =
      PyOutcome.runtimeError "Failed to remove cookie: Unknown error" ∧
    (removeFull [] "x" "nowhere.test").1.1 ≠ PyOutcome.ok true := by
  refine ⟨rfl, ?_, ?_⟩ <;> decide

/-- C1 (amended): for every store and absent (name, domain) key, `remove`
yields the `NotFound` status and leaves the store unchanged, but the
boundary layer surfaces it as a raised `RuntimeError` (with the fallback
message), not as a non-error no-op. -/
theorem remove_absent_raises (s : List Cookie) (n d : String)
    (h : s.any (fun x => x.name == n && x.domain == d) = false) :
    engineRemove s n d = (Status.notFound, s) ∧
    (removeFull s n d).2 = s ∧
    (removeFull s n d).1.1 =
      PyOutcome.runtimeError "Failed to remove cookie: Unknown error" := by
  have he : engineRemove s n d = (Status.notFound, s) := by
    unfold engineRemove
    rw [if_neg (by simp [h])]
  have h2 : removeFull s n d =
      (CookieStore.remove { code := Status.notFound.code,
                            errMsg := engineErrMsg .notFound }, s) := by
    unfold removeFull
    rw [he]
  refine ⟨he, by rw [h2], ?_⟩
  rw [h2]
  exact (by decide :
    (CookieStore.remove { code := Status.notFound.code,
                          errMsg := engineErrMsg .notFound }).1 =
      PyOutcome.runtimeError "Failed to remove cookie: Unknown error")

/-- C1 witness: the amended claim at a concrete store and key. -/
theorem remove_absent_raises_witness :
    ([cB].any (fun x => x.name == "x" && x.domain == "nowhere.test")
        = false) ∧
    (engineRemove [cB] "x" "nowhere.test" = (Status.notFound, [cB]) ∧
     (removeFull [cB] "x" "nowhere.test").2 = [cB] ∧
     (removeFull [cB] "x" "nowhere.test").1.1 =
       PyOutcome.runtimeError "Failed to remove cookie: Unknown error") :=
  ⟨by decide, remove_absent_raises [cB] "x" "nowhere.test" (by decide)⟩

/-- C2: the read operations convert the `NotFound` status into an empty
collection, and raise a `RuntimeError` only for statuses that are neither
`Success` nor `NotFound` (`AllocationFailed` and `Exception`). -/
theorem notFound_reads_empty :
    (∀ r : ReadReply, r.code = COOKIE_NOT_FOUND →
        (CookieStore.get_by_domain r).1 = PyOutcome.ok []) ∧
    (∀ r : ReadReply, r.code = COOKIE_NOT_FOUND →
        (CookieStore.get_all r).1 = PyOutcome.ok []) ∧
    (∀ (r : ReadReply) (m : String),
        (CookieStore.get_by_domain r).1 = PyOutcome.runtimeError m →
        r.code ≠ COOKIE_SUCCESS ∧ r.code ≠ COOKIE_NOT_FOUND) ∧
    (∀ (r : ReadReply) (m : String),
        (CookieStore.get_all r).1 = PyOutcome.runtimeError m →
        r.code ≠ COOKIE_SUCCESS ∧ r.code ≠ COOKIE_NOT_FOUND) := by
  refine ⟨?_, ?_, ?_, ?_⟩
  · intro r h
    simp [CookieStore.get_by_domain, h]
  · intro r h
    simp [CookieStore.get_all, h]
  · intro r m h
    by_cases h1 : r.code = COOKIE_NOT_FOUND
    · simp [CookieStore.get_by_domain, h1] at h
    · by_cases h0 : r.code = COOKIE_SUCCESS
      · rcases hd : r.outData with _ | jar <;>
          simp [CookieStore.get_by_domain, h0, h1, hd,
            COOKIE_SUCCESS, COOKIE_NOT_FOUND] at h
      · exact ⟨h0, h1⟩
  · intro r m h
    by_cases h1 : r.code = COOKIE_NOT_FOUND
    · simp [CookieStore.get_all, h1] at h
    · by_cases h0 : r.code = COOKIE_SUCCESS
      · rcases hd : r.outData with _ | jar <;>
          simp [CookieStore.get_all, h0, h1, hd,
            COOKIE_SUCCESS, COOKIE_NOT_FOUND] at h
      · exact ⟨h0, h1⟩

/-- C2 witness: a concrete `NotFound` reply comes back as an empty list. -/
theorem notFound_reads_empty_witness :
    ({ code := 1, outData := none, errMsg := none : ReadReply }.code
        = COOKIE_NOT_FOUND) ∧
    (CookieStore.get_by_domain
        { code := 1, outData := none, errMsg := none }).1 =
      PyOutcome.ok [] :=
  ⟨rfl, notFound_reads_empty.1
    { code := 1, outData := none, errMsg := none } rfl⟩

/-- C5: `get_by_domain` returns exactly the cookies whose domain field is
string-equal to the argument, in insertion order, and every returned
cookie has that exact domain (no suffix or wildcard matching). -/
theorem get_by_domain_exact (s : List Cookie) (d : String) :
    (get_by_domainFull s d).1 =
      PyOutcome.ok (s.filter (fun x => x.domain == d)) ∧
    ∀ c ∈ s.filter (fun x => x.domain == d), c.domain = d := by
  refine ⟨get_by_domainFull_ok s d, ?_⟩
  intro c hc
  have h2 := (List.mem_filter.mp hc).2
  simpa using h2

/-- C5 witness: the exact-domain filter at a concrete two-cookie store. -/
theorem get_by_domain_exact_witness :
    ((get_by_domainFull [cA, cB] "a.test").1 =
      PyOutcome.ok ([cA, cB].filter (fun x => x.domain == "a.test"))) ∧
    cA.domain = "a.test" :=
  ⟨(get_by_domain_exact [cA, cB] "a.test").1,
   (get_by_domain_exact [cA, cB] "a.test").2 cA (by decide)⟩

/-- C6: `clear_all` succeeds on every store (in particular the empty one),
empties the store, is idempotent, and a subsequent `get_all` takes the
`NotFound` branch and hands the caller an empty collection. -/
theorem clear_all_idempotent (s : List Cookie) :
    (clear_allFull s).1.1 = PyOutcome.ok true ∧
    (clear_allFull s).2 = [] ∧
    clear_allFull ((clear_allFull s).2) = clear_allFull s ∧
    (engineGetAll (clear_allFull s).2).1 = Status.notFound ∧
    (get_allFull (clear_allFull s).2).1 = PyOutcome.ok [] :=
  ⟨rfl, rfl, rfl, rfl, rfl⟩

/-- C7: the status codes form the closed set 0, 1, 2, -1, and the binding
constants agree with the engine statuses value for value. -/
theorem status_codes_closed :
    COOKIE_SUCCESS = Status.success.code ∧
    COOKIE_NOT_FOUND = Status.notFound.code ∧
    COOKIE_ALLOCATION_FAILED = Status.allocationFailed.code ∧
    COOKIE_EXCEPTION = Status.exception.code ∧
    ∀ st : Status, st.code = 0 ∨ st.code = 1 ∨ st.code = 2 ∨
      st.code = -1 := by
  refine ⟨rfl, rfl, rfl, rfl, fun st => ?_⟩
  cases st <;> simp [Status.code]

/-- C3: round-trip — on any key-unique store, `set(c)` followed by
`get_by_domain(c.domain)` hands the caller a collection containing
exactly one cookie equal to `c` (all seven fields). -/
theorem set_get_roundtrip (s : List Cookie) (c : Cookie)
    (h : KeyUnique s) :
    ∃ r : List Cookie,
      (get_by_domainFull (engineSet s c) c.domain).1 = PyOutcome.ok r ∧
      r.count c = 1 := by
  refine ⟨(engineSet s c).filter (fun x => x.domain == c.domain),
    get_by_domainFull_ok _ _, ?_⟩
  have e1 : ((engineSet s c).filter
        (fun x => x.domain == c.domain)).count c =
      (engineSet s c).count c :=
    List.count_filter (by simp)
  have e2 : ((engineSet s c).filter (fun x => sameKey x c)).count c =
      (engineSet s c).count c :=
    List.count_filter (sameKey_self c)
  rw [e1, ← e2, engineSet_filter_key h c]
  simp

/-- C3 witness: the round-trip at a concrete store and cookie. -/
theorem set_get_roundtrip_witness :
    KeyUnique [cB] ∧
    ∃ r : List Cookie,
      (get_by_domainFull (engineSet [cB] cA) cA.domain).1 =
        PyOutcome.ok r ∧
      r.count cA = 1 :=
  ⟨by simp [KeyUnique], set_get_roundtrip [cB] cA (by simp [KeyUnique])⟩

/-- C4: every store reachable from the empty store by engine operations
has at most one cookie per (name, domain) key, and `set(c)` followed by
`set(c')` on a shared key leaves exactly one cookie under that key, equal
to `c'` (full replacement, not field-merge). -/
theorem key_uniqueness_overwrite :
    (∀ t : List Cookie, Reachable t → KeyUnique t) ∧
    (∀ (s : List Cookie) (c c' : Cookie),
      KeyUnique s → sameKey c c' = true →
      (engineSet (engineSet s c) c').filter (fun x => sameKey x c)
        = [c']) := by
  refine ⟨fun t ht => reachable_keyUnique ht, ?_⟩
  intro s c c' hu hk
  have h1 : KeyUnique (engineSet s c) := keyUnique_engineSet hu c
  have h2 := engineSet_filter_key h1 c'
  have hcongr : ∀ x ∈ engineSet (engineSet s c) c',
      (sameKey x c) = (sameKey x c') := by
    intro x _
    rw [sameKey_comm x c, sameKey_comm x c']
    exact (sameKey_congr_left hk x).symm
  rw [List.filter_congr hcongr]
  exact h2

/-- C4 witness: reachable-store uniqueness and the overwrite at concrete
cookies sharing the key (name n1, a.test). -/
theorem key_uniqueness_overwrite_witness :
    KeyUnique (engineSet [] cA) ∧
    (engineSet (engineSet [cB] cA) cA2).filter (fun x => sameKey x cA)
      = [cA2] :=
  ⟨key_uniqueness_overwrite.1 _ (Reachable.set cA Reachable.empty),
   key_uniqueness_overwrite.2 [cB] cA cA2 (by simp [KeyUnique])
     (by decide)⟩

/-- C8: on every return path of `get_by_domain` and `get_all`, each
release goes through the single dedicated entry point
`free_knative_pointer` (never the caller's allocator) and targets an
out-slot whose pointer is non-null. -/
theorem frees_via_dedicated_entry (r : ReadReply) (d : Dealloc)
    (h : d ∈ (CookieStore.get_by_domain r).2 ∨
         d ∈ (CookieStore.get_all r).2) :
    ∃ sl : Slot, d = Dealloc.free_knative_pointer sl ∧
      slotNonNull r sl = true := by
  rcases h with h | h
  · exact get_by_domain_frees r d h
  · rw [← frees_shape r] at h
    exact get_by_domain_frees r d h

/-- C8 witness: the `NotFound` path frees the non-null message slot
through `free_knative_pointer`. -/
theorem frees_via_dedicated_entry_witness :
    ∃ sl : Slot,
      Dealloc.free_knative_pointer Slot.errSlot =
        Dealloc.free_knative_pointer sl ∧
      slotNonNull { code := 1, outData := none, errMsg := some "m" } sl
        = true :=
  frees_via_dedicated_entry
    { code := 1, outData := none, errMsg := some "m" }
    (Dealloc.free_knative_pointer Slot.errSlot)
    (Or.inl (by decide))

/-- C9: over any number of destructor runs, `cookie_store_free` is called
at most once, only ever on the original non-null handle, and a second run
after the handle was nulled out frees nothing. -/
theorem destructor_frees_at_most_once (self : CookieStore) (n : Nat) :
    (delRuns self n).2.length ≤ 1 ∧
    (∀ h ∈ (delRuns self n).2, self._store = some h) ∧
    ((self.del.1).del).2 = [] := by
  rcases self with ⟨_ | h0⟩
  · rw [delRuns_none]
    exact ⟨by simp, by simp, rfl⟩
  · cases n with
    | zero =>
        exact ⟨by simp [delRuns], by simp [delRuns], rfl⟩
    | succ k =>
        have hrun : delRuns ⟨some h0⟩ (k + 1) = (⟨none⟩, [h0]) := by
          simp [delRuns, CookieStore.del, delRuns_none]
        rw [hrun]
        refine ⟨by simp, ?_, rfl⟩
        intro h hh
        simp only [List.mem_singleton] at hh
        rw [hh]

/-- C9 witness: the destructor contract at a concrete handle, three runs. -/
theorem destructor_frees_at_most_once_witness :
    ({ _store := some 5 } : CookieStore)._store = some 5 ∧
    (delRuns { _store := some 5 } 3).2.length ≤ 1 :=
  ⟨(destructor_frees_at_most_once { _store := some 5 } 3).2.1 5
     (by decide),
   (destructor_frees_at_most_once { _store := some 5 } 3).1⟩

/-- C10: when an operation fails and the engine leaves the error-message
out-slot null, every binding method raises a well-formed `RuntimeError`
built from the fallback text "Unknown error", performs no deallocation
of the null pointer, and never dereferences it. -/
theorem null_message_fallback (code : Int) (data : Option (List Cookie))
    (h0 : code ≠ COOKIE_SUCCESS) :
    CookieStore.set { code := code, errMsg := none } =
      (PyOutcome.runtimeError "Failed to set cookie: Unknown error",
       []) ∧
    CookieStore.remove { code := code, errMsg := none } =
      (PyOutcome.runtimeError "Failed to remove cookie: Unknown error",
       []) ∧
    CookieStore.clear_all { code := code, errMsg := none } =
      (PyOutcome.runtimeError
        "Failed to clear all cookies: Unknown error", []) ∧
    (code ≠ COOKIE_NOT_FOUND →
      CookieStore.get_by_domain
          { code := code, outData := data, errMsg := none } =
        (PyOutcome.runtimeError
          "Failed to get cookies by domain: Unknown error", []) ∧
      CookieStore.get_all
          { code := code, outData := data, errMsg := none } =
        (PyOutcome.runtimeError
          "Failed to get all cookies: Unknown error", [])) := by
  refine ⟨?_, ?_, ?_, fun h1 => ⟨?_, ?_⟩⟩
  · unfold CookieStore.set
    rw [if_pos h0]
    have hs : "Failed to set cookie: " ++ "Unknown error" =
        "Failed to set cookie: Unknown error" := by decide
    simp [freeIfNonNull, hs]
  · unfold CookieStore.remove
    rw [if_pos h0]
    have hs : "Failed to remove cookie: " ++ "Unknown error" =
        "Failed to remove cookie: Unknown error" := by decide
    simp [freeIfNonNull, hs]
  · unfold CookieStore.clear_all
    rw [if_pos h0]
    have hs : "Failed to clear all cookies: " ++ "Unknown error" =
        "Failed to clear all cookies: Unknown error" := by decide
    simp [freeIfNonNull, hs]
  · unfold CookieStore.get_by_domain
    rw [if_neg h1, if_pos h0]
    have hs : "Failed to get cookies by domain: " ++ "Unknown error" =
        "Failed to get cookies by domain: Unknown error" := by decide
    simp [freeIfNonNull, hs]
  · unfold CookieStore.get_all
    rw [if_neg h1, if_pos h0]
    have hs : "Failed to get all cookies: " ++ "Unknown error" =
        "Failed to get all cookies: Unknown error" := by decide
    simp [freeIfNonNull, hs]

/-- C10 witness: the fallback at status code -1 (`Exception`). -/
theorem null_message_fallback_witness :
    ((-1 : Int) ≠ COOKIE_SUCCESS) ∧
    CookieStore.set { code := -1, errMsg := none } =
      (PyOutcome.runtimeError "Failed to set cookie: Unknown error",
       []) :=
  ⟨by decide, (null_message_fallback (-1) none (by decide)).1⟩

end CookieBridge
